import Mathlib

/-!
Shallow embedding of the ShelterMatching backend
(`AWS Connection/hello_world/shelter_matching_backend.py` and
`AWS Connection/hello_world/smartsheet_client.py`).

Rows coming out of `sheet_to_records` / `DataFrame.to_dict(orient="records")`
are Python dicts mapping column names to Smartsheet cell scalars
(`None`, `bool`, `int`, `float`, `str`; `datetime.date` values additionally
appear in bed records).  We model such dynamic scalars by `PyVal`, dict rows
by association lists, and Python code that can raise by `Except PyErr`.
-/

namespace ShelterMatching

/-- Decidable equality for `Except` results, so concrete runs of the embedded
code can be checked by `decide`. -/
instance {e a : Type} [DecidableEq e] [DecidableEq a] : DecidableEq (Except e a) := fun x y =>
  match x, y with
  | .ok v, .ok w =>
    if h : v = w then .isTrue (by rw [h]) else .isFalse (fun hh => by cases hh; exact h rfl)
  | .error v, .error w =>
    if h : v = w then .isTrue (by rw [h]) else .isFalse (fun hh => by cases hh; exact h rfl)
  | .ok _, .error _ => .isFalse (fun hh => by cases hh)
  | .error _, .ok _ => .isFalse (fun hh => by cases hh)

/-- Python exception kinds that the embedded code can raise. -/
inductive PyErr where
  | typeError
  | valueError
  | overflowError
  | attributeError
  | unboundLocalError
  deriving DecidableEq, Repr

/-- A Python float: either a finite value (modelled as an exact rational),
a NaN, or a signed infinity.  Binary rounding of decimal literals is not
modelled; the embedded code only inspects floats via `pd.isna`, `int(...)`
truncation, comparison and `str(...)`. -/
inductive PyFloat where
  | finite (q : ℚ)
  | nan
  | inf (neg : Bool)
  deriving DecidableEq, Repr

/-- A Python `datetime.date` (as produced by `date.fromisoformat`). -/
structure PyDate where
  y : Nat
  m : Nat
  d : Nat
  deriving DecidableEq, Repr

/-- A dynamic Python scalar as it appears in a Smartsheet record:
`None`, `bool`, `int`, `float`, `str` (plus `datetime.date`, which
`normalize_bed_row` places into bed records). -/
inductive PyVal where
  | vNone
  | vBool (b : Bool)
  | vInt (n : ℤ)
  | vFloat (f : PyFloat)
  | vStr (s : String)
  | vDate (dt : PyDate)
  deriving DecidableEq, Repr

open PyVal

/-- Truncation of a rational toward zero, as Python `int(float)` does
(`int(-7.9) == -7`). -/
def ratTrunc (q : ℚ) : ℤ :=
  if q < 0 then -(((-q.num).toNat / q.den : Nat) : ℤ) else ((q.num.toNat / q.den : Nat) : ℤ)

/-- The characters Python `str.strip()` removes. -/
def isPyWs (c : Char) : Bool :=
  c = ' ' ∨ c = '\t' ∨ c = '\n' ∨ c = '\r' ∨ c = '\x0b' ∨ c = '\x0c'

/-- Python `str.strip()`: drop whitespace from both ends. -/
def pyStrip (s : String) : String :=
  String.mk (((s.data.dropWhile isPyWs).reverse.dropWhile isPyWs).reverse)

/-- ASCII lower-casing of one character (`str.lower()` on the ASCII range). -/
def lowerChar (c : Char) : Char :=
  if 'A' ≤ c ∧ c ≤ 'Z' then Char.ofNat (c.toNat + 32) else c

/-- Python `str.lower()` (ASCII). -/
def pyLower (s : String) : String :=
  String.mk (s.data.map lowerChar)

/-- Split a character list on a delimiter character (`str.split(delim)` with a
one-character delimiter; `cur` is the reversed current piece). -/
def splitOnCharAux (delim : Char) : List Char → List Char → List (List Char)
  | [], cur => [cur.reverse]
  | c :: t, cur =>
    if c = delim then cur.reverse :: splitOnCharAux delim t []
    else splitOnCharAux delim t (c :: cur)

/-- Python `s.split(delim)` for a one-character delimiter. -/
def splitOnChar (s : String) (delim : Char) : List String :=
  (splitOnCharAux delim s.data []).map String.mk

/-- Python `s.replace(old, new)` for one-character patterns. -/
def replaceChar (s : String) (old new : Char) : String :=
  String.mk (s.data.map (fun c => if c = old then new else c))

/-- Zero-pad a natural number to two decimal digits. -/
def pad2 (n : Nat) : String :=
  if n < 10 then "0" ++ toString n else toString n

/-- Zero-pad a natural number to four decimal digits. -/
def pad4 (n : Nat) : String :=
  if n < 10 then "000" ++ toString n
  else if n < 100 then "00" ++ toString n
  else if n < 1000 then "0" ++ toString n
  else toString n

/-- Decimal digits of the fractional part `num/den` (with `num < den`),
produced by long division, up to `fuel` digits; stops early when the
remainder becomes zero.  Models `str()` of floats whose value is a short
exact decimal (all cases exercised by this code base). -/
def fracDigits : Nat → Nat → Nat → List Char
  | _, _, 0 => []
  | num, den, fuel + 1 =>
    if num = 0 then []
    else if den = 0 then []
    else
      let dgt := num * 10 / den
      Char.ofNat (48 + dgt) :: fracDigits (num * 10 % den) den fuel

/-- `str()` of a finite Python float, e.g. `str(4.0) = "4.0"`,
`str(-7.25) = "-7.25"`. -/
def floatRepr (q : ℚ) : String :=
  let sign := if q < 0 then "-" else ""
  let n := q.num.natAbs
  let fr := fracDigits (n % q.den) q.den 17
  sign ++ toString (n / q.den) ++ "." ++ (if fr.isEmpty then "0" else String.mk fr)

/-- Python `str(val)` on a Smartsheet scalar. -/
def pyStr : PyVal → String
  | vNone => "None"
  | vBool b => if b then "True" else "False"
  | vInt n => toString n
  | vFloat (.finite q) => floatRepr q
  | vFloat .nan => "nan"
  | vFloat (.inf neg) => if neg then "-inf" else "inf"
  | vStr s => s
  | vDate dt => pad4 dt.y ++ "-" ++ pad2 dt.m ++ "-" ++ pad2 dt.d

/-- Python truthiness (`bool(val)`): `None` and zero and the empty string are
falsy, everything else (including NaN and infinities) is truthy. -/
def pyTruthy : PyVal → Bool
  | vNone => false
  | vBool b => b
  | vInt n => n ≠ 0
  | vFloat (.finite q) => q ≠ 0
  | vFloat .nan => true
  | vFloat (.inf _) => true
  | vStr s => s ≠ ""
  | vDate _ => true

/-- The numeric value of a scalar, when Python treats it as a number for `==`
(`bool` is a subclass of `int`, so `True == 1`). -/
def pyNum : PyVal → Option PyFloat
  | vBool b => some (.finite (if b then 1 else 0))
  | vInt n => some (.finite (n : ℚ))
  | vFloat f => some f
  | _ => none

/-- Python `==` on two floats-as-numbers: NaN equals nothing (not even
itself), infinities compare by sign, finite values by value. -/
def pyFloatEq : PyFloat → PyFloat → Bool
  | .finite q, .finite q' => q = q'
  | .inf n, .inf n' => n = n'
  | _, _ => false

/-- Python `==` on Smartsheet scalars: numbers compare across `bool`/`int`/
`float`; strings compare to strings; `None` only to `None`; dates to dates;
every cross-kind comparison (e.g. `4 == "4"`) is `False`. -/
def pyEq (a b : PyVal) : Bool :=
  match pyNum a, pyNum b with
  | some fa, some fb => pyFloatEq fa fb
  | _, _ =>
    match a, b with
    | vNone, vNone => true
    | vStr s, vStr s' => s = s'
    | vDate d, vDate d' => d = d'
    | _, _ => false

/-- Does `hay` (a list of characters) contain `needle` as a contiguous
sublist?  Models Python's `needle in hay` on strings. -/
def containsSub : List Char → List Char → Bool
  | h, n => n.isPrefixOf h ||
      (match h with
       | [] => false
       | _ :: t => containsSub t n)

/-- Python `needle in hay` for strings. -/
def strContains (hay needle : String) : Bool :=
  containsSub hay.data needle.data

/-- Digits of a decimal numeral folded into a natural number. -/
def digitsToNat (cs : List Char) : Nat :=
  cs.foldl (fun a c => a * 10 + (c.toNat - 48)) 0

/-- Python `int(s)` on an (already stripped) string: an optional sign
followed by decimal digits; anything else raises `ValueError`
(underscore digit separators are not modelled). -/
def parseIntQ (s : String) : Option ℤ :=
  match s.data with
  | [] => none
  | c :: rest =>
    let sign : ℤ := if c = '-' then -1 else 1
    let ds := if c = '-' ∨ c = '+' then rest else c :: rest
    if ds ≠ [] ∧ ds.all Char.isDigit then some (sign * (digitsToNat ds : ℤ)) else none

/-- Mantissa of a Python float literal — `digits`, `digits.`, `.digits` or
`digits.digits` — as a pair (digit value, number of decimal places). -/
def parseMantissa (m : String) : Option (Nat × Nat) :=
  match splitOnChar m '.' with
  | [ip] =>
    if ip.data ≠ [] ∧ ip.data.all Char.isDigit then some (digitsToNat ip.data, 0)
    else none
  | [ip, fp] =>
    if (ip.data ≠ [] ∨ fp.data ≠ []) ∧ ip.data.all Char.isDigit ∧ fp.data.all Char.isDigit then
      some (digitsToNat (ip.data ++ fp.data), fp.data.length)
    else none
  | _ => none

/-- The rational `± digits · 10^(ex - places)`, the value of a parsed float
literal. -/
def floatLitValue (neg : Bool) (digits places : Nat) (ex : ℤ) : ℚ :=
  let n : ℤ := if neg then -(digits : ℤ) else (digits : ℤ)
  if 0 ≤ ex - (places : ℤ) then mkRat (n * (10 : ℤ) ^ (ex - (places : ℤ)).toNat) 1
  else mkRat n ((10 : Nat) ^ ((places : ℤ) - ex).toNat)

/-- The smallest magnitude at which IEEE-754 binary64 round-to-nearest-even
(the rounding CPython's `float(str)` performs) overflows to infinity: the
midpoint `2^1024 - 2^970` between the largest finite double
`2^1024 - 2^971` and `2^1024` (the tie rounds up, away from the all-ones
mantissa). -/
def dblOverflowBound : Nat := 2 ^ 1024 - 2 ^ 970

/-- Does the decimal literal `digits · 10^(ex - places)` overflow the double
range, so that CPython's `float(s)` silently returns `±inf`
(e.g. `float("1e999") = inf`, `float("2e308") = inf`)? -/
def floatLitOverflows (digits places : Nat) (ex : ℤ) : Bool :=
  if (places : ℤ) ≤ ex then dblOverflowBound ≤ digits * 10 ^ (ex - (places : ℤ)).toNat
  else dblOverflowBound * 10 ^ (((places : ℤ) - ex)).toNat ≤ digits

/-- Python `float(s)` on an (already stripped) string, case-insensitively:
`inf`/`infinity`/`nan` with optional sign, or a decimal literal with an
optional exponent.  A literal beyond the double range silently overflows to
`±inf`, as CPython's `float()` does; in-range literals are kept as exact
rationals (binary64 rounding and underflow to zero are not modelled — none
of the embedded operations distinguish them).  Underscore separators are not
modelled. -/
def parseFloatQ (s : String) : Option PyFloat :=
  let t := pyLower s
  match t.data with
  | [] => none
  | c :: rest =>
    let neg := c = '-'
    let body := String.mk (if c = '-' ∨ c = '+' then rest else c :: rest)
    if body = "inf" ∨ body = "infinity" then some (.inf neg)
    else if body = "nan" then some .nan
    else
      match splitOnChar body 'e' with
      | [m] =>
        (parseMantissa m).map (fun p =>
          if floatLitOverflows p.1 p.2 0 then .inf neg
          else .finite (floatLitValue neg p.1 p.2 0))
      | [m, e] =>
        match parseMantissa m, parseIntQ e with
        | some p, some ex =>
          some (if floatLitOverflows p.1 p.2 ex then .inf neg
            else .finite (floatLitValue neg p.1 p.2 ex))
        | _, _ => none
      | _ => none

/-- A record row: a Python dict from column names to cell scalars, with
unique keys, as produced by `sheet_to_records` / `to_dict(orient="records")`. -/
def Row := List (String × PyVal)

instance : DecidableEq Row := inferInstanceAs (DecidableEq (List (String × PyVal)))

/-- `row.get(key)` on a dict: the bound value, or `None` when absent. -/
def getRow (r : Row) (k : String) : PyVal :=
  match r.find? (fun p => p.1 == k) with
  | some p => p.2
  | none => vNone

/-- `_to_bool` (shelter_matching_backend.py lines 29-36): real bools pass
through, `None` is false, otherwise `str(val).strip().lower()` must be one of
`true`/`yes`/`y`/`1`. -/
def toBool : PyVal → Bool
  | vBool b => b
  | vNone => false
  | v =>
    let s := pyLower (pyStrip (pyStr v))
    s = "true" ∨ s = "yes" ∨ s = "y" ∨ s = "1"

/-- The string branch of `_to_int_or_none` (lines 54-66) on the already
stripped text: try `int(s)`, then `int(float(s))`, mapping `ValueError` to
`None`; an infinite float value — an `inf`/`infinity` literal or a decimal
literal overflowing the double range, such as `"1e999"` — raises
`OverflowError` (uncaught). -/
def strToIntOrNone (s : String) : Except PyErr (Option ℤ) :=
  if s = "" then .ok none
  else
    match parseIntQ s with
    | some n => .ok (some n)
    | none =>
      match parseFloatQ s with
      | some (.finite q) => .ok (some (ratTrunc q))
      | some .nan => .ok none
      | some (.inf _) => .error .overflowError
      | none => .ok none

/-- `_to_int_or_none` (lines 39-66).  `None` and NaN floats are missing;
finite floats truncate; `int(inf)` raises `OverflowError` (uncaught, since
only `ValueError` is handled); bools take the `isinstance(val, int)` branch;
otherwise `str(val).strip()` is parsed first as an int, then as a float
(`int(float(s))`), with `ValueError` mapped to `None` and an infinite float
value raising `OverflowError`. -/
def toIntOrNone : PyVal → Except PyErr (Option ℤ)
  | vNone => .ok none
  | vFloat .nan => .ok none
  | vFloat (.finite q) => .ok (some (ratTrunc q))
  | vFloat (.inf _) => .error .overflowError
  | vBool b => .ok (some (if b then 1 else 0))
  | vInt n => .ok (some n)
  | v => strToIntOrNone (pyStrip (pyStr v))

/-- The inputs on which `_to_int_or_none` raises (`OverflowError` from
`int(±inf)`): an infinite float, or a value whose stripped string form fails
`int(...)` but produces an infinite `float(...)` — an `inf`/`infinity`
literal, or a decimal literal overflowing the double range such as
`"1e999"` or `"2e308"`. -/
def infLikeInput (v : PyVal) : Bool :=
  match v with
  | vNone => false
  | vFloat .nan => false
  | vFloat (.finite _) => false
  | vFloat (.inf _) => true
  | vBool _ => false
  | vInt _ => false
  | v =>
    (parseIntQ (pyStrip (pyStr v))).isNone &&
      (match parseFloatQ (pyStrip (pyStr v)) with
       | some (.inf _) => true
       | _ => false) &&
      !(pyStrip (pyStr v) == "")

/-- `_split_tags` (lines 69-92): `None` and NaN give `[]`; otherwise
`str(val).strip().lower()` gives `[]` when empty or when the *whole* string
is `"nan"`/`"none"`, and otherwise is split on commas with each piece
stripped and empty pieces dropped. -/
def splitTags : PyVal → List String
  | vNone => []
  | vFloat .nan => []
  | v =>
    let s := pyLower (pyStrip (pyStr v))
    if s = "" then []
    else if s = "nan" ∨ s = "none" then []
    else (splitOnChar s ',').filterMap (fun p => if pyStrip p = "" then none else some (pyStrip p))

/-- `normalize_shelters_df` (lines 181-219), per record row: maps raw
Smartsheet shelter columns to the normalized fields used by the matcher.
The `spa` column goes through `_to_int_or_none` (which can raise); the
commented-out `shelter_programs` / `shelter_sexual_orientation` columns are
*not* emitted.  An `Option ℤ` SPA is stored back as a scalar
(`vNone` / `vInt`). -/
def normalizeShelterRow (raw : Row) : Except PyErr Row :=
  match toIntOrNone (getRow raw "spa") with
  | .error e => .error e
  | .ok spa =>
    .ok [("shelter_uid", getRow raw "shelter_id"),
         ("shelter_name", getRow raw "shelter_name"),
         ("shelter_spa", match spa with | some n => vInt n | none => vNone),
         ("shelter_cities", getRow raw "cities"),
         ("shelter_age", getRow raw "age_group"),
         ("shelter_gender", getRow raw "gender"),
         ("shelter_entry_requirements", getRow raw "entry_requirements"),
         ("shelter_special_situation_restrictions", getRow raw "special_situation_restrictions"),
         ("shelter_accessibility", getRow raw "accessibility"),
         ("shelter_health_services", getRow raw "health_services"),
         ("shelter_room_style", getRow raw "room_style"),
         ("shelter_storage", getRow raw "storage"),
         ("shelter_pets", getRow raw "pets"),
         ("shelter_meals", getRow raw "meals"),
         ("shelter_parking", getRow raw "parking"),
         ("shelter_vehicles", getRow raw "vehicles"),
         ("shelter_criminal_history", getRow raw "criminal_history"),
         ("shelter_email", getRow raw "email"),
         ("shelter_phone", getRow raw "phone")]

/-- One value of the `beds_by_shelter` dict built by
`get_latest_beds_by_shelter`: `{"date": ..., "beds_available": ...}`. -/
structure BedInfo where
  date : PyDate
  bedsAvailable : ℤ
  deriving DecidableEq, Repr

/-- The `beds_by_shelter` mapping: a dict keyed by shelter uid strings. -/
def BedsMap := List (String × BedInfo)

instance : DecidableEq BedsMap := inferInstanceAs (DecidableEq (List (String × BedInfo)))

/-- `beds_by_shelter.get(uid, {})`, with `uid` an arbitrary scalar compared
against the string keys by Python `==`. -/
def lookupBeds (beds : BedsMap) (uid : PyVal) : Option BedInfo :=
  match beds.find? (fun p => pyEq uid (vStr p.1)) with
  | some p => some p.2
  | none => none

/-- `beds_available` for a shelter uid: `bed_info.get("beds_available", 0)`
followed by the `is None` coalescing (lines 247-250; the dict values built by
`get_latest_beds_by_shelter` always carry an int, so the default only fires
for a missing uid). -/
def bedsAvailableFor (beds : BedsMap) (uid : PyVal) : ℤ :=
  match lookupBeds beds uid with
  | some info => info.bedsAvailable
  | none => 0

/-- Step 1 of `is_exact_match` (lines 242-253): fail when the shelter uid is
falsy or no beds are available. -/
def bedsCheckFails (sh : Row) (beds : BedsMap) : Bool :=
  let uid := getRow sh "shelter_uid"
  !pyTruthy uid || bedsAvailableFor beds uid ≤ 0

/-- Step 2 of `is_exact_match` (lines 255-264): when the referral's
`ref_exclude_spa` splits into a non-empty tag list, fail if `shelter_spa` is
`None` or is `==`-equal to one of the (string) tags.  Note the tags are
strings while a normalized `shelter_spa` is an int, and `4 == "4"` is `False`
in Python. -/
def spaCheckFails (ref sh : Row) : Bool :=
  let refExcludeSpa := splitTags (getRow ref "ref_exclude_spa")
  let shelterSpa := getRow sh "shelter_spa"
  !refExcludeSpa.isEmpty &&
    (shelterSpa == vNone || refExcludeSpa.any (fun t => pyEq shelterSpa (vStr t)))

/-- Step 3 of `is_exact_match` (lines 266-276): a referral with an animal
needs a shelter with some pets tag and without `no_pets_allowed`. -/
def petsCheckFails (ref sh : Row) : Bool :=
  let hasAnimal := toBool (getRow ref "ref_has_any_animal")
  let shelterPetsTags := splitTags (getRow sh "shelter_pets")
  hasAnimal && (shelterPetsTags.isEmpty || shelterPetsTags.contains "no_pets_allowed")

/-- Is this program tag safe-parking-like (`"safe_park" in p` or
`"safe parking" in p`)? -/
def safeParkTag (p : String) : Bool :=
  strContains p "safe_park" || strContains p "safe parking"

/-- Step 4 of `is_exact_match` (lines 278-298): a referral with a vehicle
needs a vehicle-friendly shelter; a referral without one must not be sent to
a safe-parking shelter. -/
def vehicleCheckFails (ref sh : Row) : Bool :=
  let hasVehicle := toBool (getRow ref "ref_vehicle")
  let shelterProgramsTags := splitTags (getRow sh "shelter_programs")
  let shelterEntryReqsTags := splitTags (getRow sh "shelter_entry_requirements")
  if hasVehicle then
    !(shelterProgramsTags.any (fun p => strContains p "safe_park") ||
      shelterProgramsTags.any (fun p => strContains p "safe parking") ||
      shelterEntryReqsTags.contains "vehicle_registration")
  else
    shelterProgramsTags.any safeParkTag

/-- `(ref_row.get(k) or "")` followed by `.strip().lower()` (lines 301-302):
a falsy value becomes `""`; a truthy non-string has no `.strip` and raises
`AttributeError`. -/
def strFieldOrEmpty (v : PyVal) : Except PyErr String :=
  if pyTruthy v then
    match v with
    | vStr s => .ok (pyLower (pyStrip s))
    | _ => .error .attributeError
  else .ok ""

/-- Lines 301-307: the resolved gender text — the bed preference unless it is
blank or contains `"no preference"`, in which case the gender identity. -/
def resolveGenderSource (ref : Row) : Except PyErr String :=
  match strFieldOrEmpty (getRow ref "ref_gender_bed_pref") with
  | .error e => .error e
  | .ok pref =>
    match strFieldOrEmpty (getRow ref "ref_gender_identity") with
    | .error e => .error e
    | .ok ident => .ok (if pref = "" || strContains pref "no preference" then ident else pref)

/-- `_serves_families` (lines 321-323). -/
def servesFamilies (tags : List String) : Bool :=
  tags.any (fun t => t = "families" || t = "single_moms" || t = "single_parents")

/-- The shelter age tags used by steps 5 and 6 (line 311): note the code
reads the *raw* column name `"age_group"`, not the normalized key
`"shelter_age"` that `normalize_shelters_df` emits; an empty list defaults to
`["all"]` (line 315-316). -/
def shelterAgeTags (sh : Row) : List String :=
  if (splitTags (getRow sh "age_group")).isEmpty then ["all"]
  else splitTags (getRow sh "age_group")

/-- The shelter gender tags of step 5 (lines 312, 317-318), defaulting to
`["all"]`. -/
def shelterGenderTags (sh : Row) : List String :=
  if (splitTags (getRow sh "shelter_gender")).isEmpty then ["all"]
  else splitTags (getRow sh "shelter_gender")

/-- Step 5 of `is_exact_match` (lines 300-352): the male/female keyword
checks against the shelter gender tags, skipped for TAY- or seniors-focused
shelters.  The two `if` blocks of lines 335-352 each `return False`, which is
the disjunction below.  (The `shelter_demographics` tags of line 309 are
computed by the source but never used.) -/
def genderFailsPure (genderSource : String) (shelterAge shelterGender : List String) : Bool :=
  if genderSource ≠ "" ∧ ¬(shelterAge.contains "tay_teen" || shelterAge.contains "seniors") then
    (strContains genderSource "male" || strContains genderSource "man" ||
      strContains genderSource "boy") &&
      !(shelterGender.contains "single_men" || shelterGender.contains "all" ||
        servesFamilies shelterGender) ||
    (strContains genderSource "female" || strContains genderSource "woman" ||
      strContains genderSource "girl") &&
      !(shelterGender.contains "single_women" || shelterGender.contains "single_moms" ||
        shelterGender.contains "all" || servesFamilies shelterGender)
  else false

/-- Step 5 wrapped over the fallible gender-source resolution. -/
def genderCheckFails (ref sh : Row) : Except PyErr Bool :=
  match resolveGenderSource ref with
  | .error e => .error e
  | .ok genderSource => .ok (genderFailsPure genderSource (shelterAgeTags sh) (shelterGenderTags sh))

/-- Step 6 of `is_exact_match` (lines 354-367): with a known referral age, a
shelter whose age tags are exactly `["seniors"]` requires age ≥ 55 and one
whose tags are exactly `["tay_teen"]` requires age ≤ 24. -/
def ageCheckFails (ref sh : Row) : Except PyErr Bool :=
  match toIntOrNone (getRow ref "ref_age") with
  | .error e => .error e
  | .ok none => .ok false
  | .ok (some a) =>
    .ok ((shelterAgeTags sh = ["seniors"] ∧ a < 55) ∨
      (shelterAgeTags sh = ["tay_teen"] ∧ a > 24))

/-- `is_exact_match` (lines 225-368): the conjunction of the six filters,
each early-returning `False`. -/
def isExactMatch (ref sh : Row) (beds : BedsMap) : Except PyErr Bool :=
  if bedsCheckFails sh beds then .ok false
  else if spaCheckFails ref sh then .ok false
  else if petsCheckFails ref sh then .ok false
  else if vehicleCheckFails ref sh then .ok false
  else
    (genderCheckFails ref sh).bind (fun g =>
      if g then .ok false
      else (ageCheckFails ref sh).bind (fun b => if b then .ok false else .ok true))

/-- Steps 3 and 4 of `debug_exact_match` (lines 402-429) followed by
line 438: `debug_exact_match` reads the local variables `shelter_age` /
`shelter_gender` (lines 438-441) before ever assigning them, so the first
time control reaches the gender section it raises `UnboundLocalError`; the
rest of the function (its gender, age and `return True, "OK"` lines) is
unreachable. -/
def debugAfterSpa (ref sh : Row) : Except PyErr (Bool × String) :=
  let hasAnimal := toBool (getRow ref "ref_has_any_animal")
  let shelterPetsTags := splitTags (getRow sh "shelter_pets")
  if hasAnimal ∧ shelterPetsTags.isEmpty then
    .ok (false, "client has animal but shelter has no pets field")
  else if hasAnimal ∧ shelterPetsTags.contains "no_pets_allowed" then
    .ok (false, "client has animal but shelter has no_pets_allowed")
  else
    let hasVehicle := toBool (getRow ref "ref_vehicle")
    let shelterProgramsTags := splitTags (getRow sh "shelter_programs")
    let shelterEntryReqsTags := splitTags (getRow sh "shelter_entry_requirements")
    if hasVehicle then
      if !(shelterProgramsTags.any (fun p => strContains p "safe_park") ||
           shelterProgramsTags.any (fun p => strContains p "safe parking") ||
           shelterEntryReqsTags.contains "vehicle_registration") then
        .ok (false, "client has vehicle but shelter not vehicle-friendly")
      else .error .unboundLocalError
    else
      if shelterProgramsTags.any safeParkTag then
        .ok (false, "client no vehicle but shelter is safe-parking only")
      else .error .unboundLocalError

/-- `debug_exact_match` (lines 374-486): same bed filter (with an
`"UNKNOWN_UID"` fallback), but a *different* SPA filter — both sides run
through `_to_int_or_none` and are compared as ints — then pets and vehicle
filters, after which the unbound `shelter_age` local raises
`UnboundLocalError` (see `debugAfterSpa`). -/
def debugExactMatch (ref sh : Row) (beds : BedsMap) : Except PyErr (Bool × String) :=
  let uid0 := getRow sh "shelter_uid"
  let uid := if pyTruthy uid0 then uid0 else vStr "UNKNOWN_UID"
  if bedsAvailableFor beds uid ≤ 0 then .ok (false, "no beds available")
  else
    (toIntOrNone (getRow ref "ref_exclude_spa")).bind (fun refExcludeSpa =>
      (toIntOrNone (getRow sh "shelter_spa")).bind (fun shelterSpa =>
        match refExcludeSpa with
        | some n =>
          match shelterSpa with
          | none => .ok (false, "shelter SPA missing")
          | some m =>
            if m = n then
              .ok (false, "SPA mismatch (ref exclude spa " ++ toString n ++ " vs shelter " ++
                toString m ++ ")")
            else debugAfterSpa ref sh
        | none => debugAfterSpa ref sh))

/-- Days in a month, with Gregorian leap years (as `datetime.date` checks). -/
def daysInMonth (y m : Nat) : Nat :=
  if m = 2 then (if (y % 4 = 0 ∧ y % 100 ≠ 0) ∨ y % 400 = 0 then 29 else 28)
  else if m = 4 ∨ m = 6 ∨ m = 9 ∨ m = 11 then 30
  else 31

/-- `date.fromisoformat` on the strict `YYYY-MM-DD` layout: four, two and two
decimal digits with a valid month and day (`ValueError`, i.e. `none`,
otherwise). -/
def parseIsoDate (s : String) : Option PyDate :=
  match splitOnChar s '-' with
  | [ys, ms, ds] =>
    if ys.data.length = 4 ∧ ms.data.length = 2 ∧ ds.data.length = 2 ∧
        ys.data.all Char.isDigit ∧ ms.data.all Char.isDigit ∧ ds.data.all Char.isDigit then
      let y := digitsToNat ys.data
      let m := digitsToNat ms.data
      let d := digitsToNat ds.data
      if 1 ≤ m ∧ m ≤ 12 ∧ 1 ≤ d ∧ d ≤ daysInMonth y m then some ⟨y, m, d⟩ else none
    else none
  | _ => none

/-- Python `<` on `datetime.date`: lexicographic on (year, month, day). -/
def dateLt (a b : PyDate) : Bool :=
  a.y < b.y ∨ (a.y = b.y ∧ (a.m < b.m ∨ (a.m = b.m ∧ a.d < b.d)))

/-- The builtin `int(val)` on a scalar: bools and ints pass through, finite
floats truncate (`nan` → `ValueError`, `±inf` → `OverflowError`), strings
are stripped and must be a signed decimal numeral (`ValueError` otherwise),
and `None`/dates raise `TypeError`. -/
def pyInt : PyVal → Except PyErr ℤ
  | vBool b => .ok (if b then 1 else 0)
  | vInt n => .ok n
  | vFloat (.finite q) => .ok (ratTrunc q)
  | vFloat .nan => .error .valueError
  | vFloat (.inf _) => .error .overflowError
  | vStr s =>
    match parseIntQ (pyStrip s) with
    | some n => .ok n
    | none => .error .valueError
  | vNone => .error .typeError
  | vDate _ => .error .typeError

/-- A normalized bed availability record, as returned by `normalize_bed_row`
(smartsheet_client.py lines 85-125). -/
structure NormBed where
  shelterUid : Option String
  bedsAvailable : ℤ
  date : Option PyDate
  deriving DecidableEq, Repr

/-- `normalize_bed_row` (lines 85-125): the shelter id is `str(...)` with
underscores replaced by dashes (`None` stays missing); `int(BedsAvailable)`
falls back to `0` on `TypeError`/`ValueError` (an `OverflowError` from an
infinite float is *not* caught and propagates); a falsy `Date` stays missing,
a string date is ISO-parsed with `ValueError` mapped to missing, and a truthy
non-string `Date` raises `TypeError` from `date.fromisoformat`.  (The
`date_str` entry of the returned dict is not used downstream and is not
modelled.)  Here: the shelter-id step (lines 99-104). -/
def bedUidOf (row : Row) : Option String :=
  match getRow row "ShelterID" with
  | vNone => none
  | v => some (replaceChar (pyStr v) '_' '-')

/-- The `int(BedsAvailable)` step of `normalize_bed_row` (lines 106-110). -/
def bedCountOf (row : Row) : Except PyErr ℤ :=
  match getRow row "BedsAvailable" with
  | vNone => .ok 0
  | v =>
    match pyInt v with
    | .ok n => .ok n
    | .error .overflowError => .error .overflowError
    | .error _ => .ok 0

/-- The `Date` parsing step of `normalize_bed_row` (lines 112-118). -/
def bedDateOf (row : Row) : Except PyErr (Option PyDate) :=
  if pyTruthy (getRow row "Date") then
    match getRow row "Date" with
    | vStr s => .ok (parseIsoDate s)
    | _ => .error .typeError
  else .ok none

/-- `normalize_bed_row` assembled (lines 120-125). -/
def normalizeBedRow (row : Row) : Except PyErr NormBed :=
  match bedCountOf row with
  | .error e => .error e
  | .ok beds =>
    match bedDateOf row with
    | .error e => .error e
    | .ok date => .ok ⟨bedUidOf row, beds, date⟩

/-- `latest[uid] = value` on a Python dict modelled as an association list:
replace in place when the key exists, append otherwise. -/
def insertD (l : List (String × BedInfo)) (k : String) (v : BedInfo) : List (String × BedInfo) :=
  match l with
  | [] => [(k, v)]
  | (k', v') :: t => if k' = k then (k, v) :: t else (k', v') :: insertD t k v

/-- Dict lookup by string key. -/
def lookupStr (l : List (String × BedInfo)) (k : String) : Option BedInfo :=
  match l.find? (fun p => p.1 == k) with
  | some p => some p.2
  | none => none

/-- One iteration of the `get_latest_beds_by_shelter` loop (lines 148-158):
skip records with a missing uid or date, insert first-seen uids, and replace
an existing entry only when the new date is strictly greater. -/
def latestStep (acc : List (String × BedInfo)) (n : NormBed) : List (String × BedInfo) :=
  match n.shelterUid, n.date with
  | some u, some d =>
    (match lookupStr acc u with
     | none => insertD acc u ⟨d, n.bedsAvailable⟩
     | some cur => if dateLt cur.date d then insertD acc u ⟨d, n.bedsAvailable⟩ else acc)
  | _, _ => acc

/-- `get_latest_beds_by_shelter` (lines 136-160), parametrized by the raw
bed-availability rows that `get_bed_availability` would fetch: normalize
every row, then fold the keep-the-strictly-latest loop. -/
def getLatestBedsByShelter (rows : List Row) : Except PyErr BedsMap :=
  match rows.mapM normalizeBedRow with
  | .error e => .error e
  | .ok ns => .ok (ns.foldl latestStep [])

/-- The per-shelter entries that survive the `continue` of lines 150-152:
uid, parsed date and bed count of every normalized row that has both a uid
and a date. -/
def goodEntries (ns : List NormBed) : List (String × PyDate × ℤ) :=
  ns.filterMap (fun n =>
    match n.shelterUid, n.date with
    | some u, some d => some (u, d, n.bedsAvailable)
    | _, _ => none)

/-- The record `get_latest_beds_by_shelter` keeps for one shelter, stated as
a recursion over that shelter's entries in input order: an entry survives
against the best of the later entries unless one of them has a *strictly*
greater date — so among several entries sharing the maximal date, the
earliest one in input order wins. -/
def selectLatest : List (String × PyDate × ℤ) → Option (String × PyDate × ℤ)
  | [] => none
  | e :: t =>
    match selectLatest t with
    | none => some e
    | some m => if dateLt e.2.1 m.2.1 then some m else some e

/-- The per-shelter effect of one loop iteration on the stored record:
first entry is kept, later ones replace it only on a strictly greater date. -/
def bestStepInfo (acc : Option BedInfo) (e : String × PyDate × ℤ) : Option BedInfo :=
  match acc with
  | none => some ⟨e.2.1, e.2.2⟩
  | some cur => if dateLt cur.date e.2.1 then some ⟨e.2.1, e.2.2⟩ else some cur

/-- Fold a candidate record against a list of later entries: a later entry
displaces it only with a strictly greater date. -/
def bestOfInfo (i : BedInfo) (l : List (String × PyDate × ℤ)) : BedInfo :=
  match selectLatest l with
  | none => i
  | some m => if dateLt i.date m.2.1 then ⟨m.2.1, m.2.2⟩ else i

/-- `MATCH_COLUMNS` (shelter_matching_backend.py lines 490-517). -/
def MATCH_COLUMNS : List String :=
  ["ref_row_id", "ref_first_name", "ref_last_name", "ref_age", "ref_gender_identity",
   "ref_gender_bed_pref", "ref_spa", "ref_vehicle", "ref_has_any_animal",
   "ref_current_location", "ref_presenting_issues",
   "shelter_uid", "shelter_name", "shelter_spa", "shelter_cities", "shelter_pets",
   "shelter_demographics", "shelter_programs", "shelter_entry_requirements",
   "shelter_email", "shelter_phone",
   "beds_available", "beds_last_updated"]

/-- The output row appended for a matching pair (lines 542-578); its dict
keys coincide with `MATCH_COLUMNS` in order.  `beds_last_updated` is the
`date` of the bed record (`None` for a missing uid), stored as a scalar. -/
def matchRowFor (ref sh : Row) (beds : BedsMap) : Row :=
  let uid := getRow sh "shelter_uid"
  let lastUpdated := match lookupBeds beds uid with
    | some info => vDate info.date
    | none => vNone
  [("ref_row_id", getRow ref "ref_row_id"),
   ("ref_first_name", getRow ref "ref_first_name"),
   ("ref_last_name", getRow ref "ref_last_name"),
   ("ref_age", getRow ref "ref_age"),
   ("ref_gender_identity", getRow ref "ref_gender_identity"),
   ("ref_gender_bed_pref", getRow ref "ref_gender_bed_pref"),
   ("ref_spa", getRow ref "ref_spa"),
   ("ref_vehicle", getRow ref "ref_vehicle"),
   ("ref_has_any_animal", getRow ref "ref_has_any_animal"),
   ("ref_current_location", getRow ref "ref_current_location"),
   ("ref_presenting_issues", getRow ref "ref_presenting_issues"),
   ("shelter_uid", getRow sh "shelter_uid"),
   ("shelter_name", getRow sh "shelter_name"),
   ("shelter_spa", getRow sh "shelter_spa"),
   ("shelter_cities", getRow sh "shelter_cities"),
   ("shelter_pets", getRow sh "shelter_pets"),
   ("shelter_demographics", getRow sh "shelter_demographics"),
   ("shelter_programs", getRow sh "shelter_programs"),
   ("shelter_entry_requirements", getRow sh "shelter_entry_requirements"),
   ("shelter_email", getRow sh "shelter_email"),
   ("shelter_phone", getRow sh "shelter_phone"),
   ("beds_available", vInt (bedsAvailableFor beds uid)),
   ("beds_last_updated", lastUpdated)]

/-- The inner loop of `build_matches` (lines 538-578) for one referral:
keep, in shelter order, the output row of every shelter that
`is_exact_match` accepts (an exception from the matcher propagates). -/
def collectForRef (ref : Row) (shelters : List Row) (beds : BedsMap) :
    Except PyErr (List Row) :=
  match shelters with
  | [] => .ok []
  | sh :: t =>
    (isExactMatch ref sh beds).bind (fun ok =>
      (collectForRef ref t beds).map (fun rest =>
        if ok then matchRowFor ref sh beds :: rest else rest))

/-- The full referral × shelter loop of `build_matches` (lines 537-578), in
encounter order. -/
def collectMatchRows (referrals shelters : List Row) (beds : BedsMap) :
    Except PyErr (List Row) :=
  match referrals with
  | [] => .ok []
  | r :: rs =>
    (collectForRef r shelters beds).bind (fun first =>
      (collectMatchRows rs shelters beds).map (fun rest => first ++ rest))

/-- Strict lexicographic comparison of character lists (the order pandas
uses on a homogeneous string column). -/
def charListLt : List Char → List Char → Bool
  | [], [] => false
  | [], _ :: _ => true
  | _ :: _, [] => false
  | a :: as, b :: bs => a < b ∨ (a = b ∧ charListLt as bs = true)

/-- The sort key pandas uses for one cell in
`sort_values(["ref_row_id", "shelter_spa", "shelter_name"])`, modelled as a
(kind-rank, numeric value, string value) triple compared lexicographically:
numbers (bools included) sort among themselves by value, strings by value,
and missing values (`None`/NaN) sort last (pandas' `na_position="last"`).
Mixed-kind columns — on which pandas would raise — are ordered by the
arbitrary kind rank; the claims only concern homogeneous key columns. -/
def cellKey (v : PyVal) : Nat × ℚ × List Char :=
  match v with
  | vBool b => (0, if b then 1 else 0, [])
  | vInt n => (0, (n : ℚ), [])
  | vFloat (.finite q) => (0, q, [])
  | vFloat (.inf neg) => (0, 0, if neg then ['-'] else ['+'])
  | vStr s => (1, 0, s.data)
  | vDate dt => (2, (dt.y * 10000 + dt.m * 100 + dt.d : Nat), [])
  | vFloat .nan => (3, 0, [])
  | vNone => (3, 0, [])

/-- Strict lexicographic order on cell keys. -/
def cellKeyLt (x y : Nat × ℚ × List Char) : Bool :=
  x.1 < y.1 ∨ (x.1 = y.1 ∧ (x.2.1 < y.2.1 ∨ (x.2.1 = y.2.1 ∧ charListLt x.2.2 y.2.2 = true)))

/-- The three-column sort key of a match row. -/
def rowSortKey (r : Row) :
    (Nat × ℚ × List Char) × (Nat × ℚ × List Char) × (Nat × ℚ × List Char) :=
  (cellKey (getRow r "ref_row_id"), cellKey (getRow r "shelter_spa"),
   cellKey (getRow r "shelter_name"))

/-- Strict lexicographic order on three-column keys. -/
def key3Lt (x y : (Nat × ℚ × List Char) × (Nat × ℚ × List Char) × (Nat × ℚ × List Char)) :
    Bool :=
  cellKeyLt x.1 y.1 ∨
    (x.1 = y.1 ∧ (cellKeyLt x.2.1 y.2.1 ∨ (x.2.1 = y.2.1 ∧ cellKeyLt x.2.2 y.2.2 = true)))

/-- The row ordering of the final
`sort_values(["ref_row_id", "shelter_spa", "shelter_name"], kind="mergesort")`:
ascending lexicographically in the three keys (non-strictly). -/
def rowLeB (a b : Row) : Bool :=
  key3Lt (rowSortKey a) (rowSortKey b) || rowSortKey a == rowSortKey b

/-- `rowLeB` as a relation, for `List.insertionSort` and `List.Sorted`. -/
def rowLe (a b : Row) : Prop :=
  rowLeB a b = true

instance : DecidableRel rowLe := fun a b => inferInstanceAs (Decidable (rowLeB a b = true))

/-- The sorted output of `build_matches`.  Pandas' `kind="mergesort"` is a
stable sort; a stable sort by a total preorder is extensionally unique, so it
is modelled by (stable) insertion sort. -/
def sortMatchRows (rows : List Row) : List Row :=
  List.insertionSort rowLe rows

/-- The result DataFrame: its column schema and its rows. -/
structure DF where
  columns : List String
  rows : List Row
  deriving DecidableEq

/-- `build_matches` (lines 523-593): collect the passing pairs; with zero
matches return an empty frame that still carries `MATCH_COLUMNS`, otherwise
sort stably by referral id, shelter SPA and shelter name. -/
def buildMatches (referrals shelters : List Row) (beds : BedsMap) : Except PyErr DF :=
  (collectMatchRows referrals shelters beds).map (fun rows =>
    if rows.isEmpty then ⟨MATCH_COLUMNS, []⟩
    else ⟨MATCH_COLUMNS, sortMatchRows rows⟩)

/-!
## Theorems

First some shared lemmas about the embedded code, then one theorem per
claim (with witnesses and counterexamples where the claim calls for them).
-/

/-- If the vehicle filter fires, `is_exact_match` returns `False`. -/
theorem isExactMatch_false_of_vehicleFails {ref sh : Row} {beds : BedsMap}
    (h : vehicleCheckFails ref sh = true) : isExactMatch ref sh beds = .ok false := by
  unfold isExactMatch
  split_ifs <;> simp_all

/-- If the gender filter fires, `is_exact_match` returns `False`. -/
theorem isExactMatch_false_of_genderFails {ref sh : Row} {beds : BedsMap}
    (h : genderCheckFails ref sh = .ok true) : isExactMatch ref sh beds = .ok false := by
  unfold isExactMatch
  split_ifs <;> simp_all [Except.bind]

/--
C1.  The claim: `debug_exact_match` passes iff `is_exact_match` does, and is
total wherever `is_exact_match` is.  The code refutes it: on a referral with
no disqualifiers and a shelter with available beds, `is_exact_match` returns
`True` while `debug_exact_match` raises `UnboundLocalError` (its lines
438-441 read the local `shelter_age` before any assignment).
-/
theorem debug_exact_match_diverges :
    isExactMatch [] [("shelter_uid", vStr "S1")] [("S1", ⟨⟨2025, 1, 1⟩, 3⟩)] = .ok true ∧
    debugExactMatch [] [("shelter_uid", vStr "S1")] [("S1", ⟨⟨2025, 1, 1⟩, 3⟩)] =
      .error .unboundLocalError := by
  decide

/--
C2.  The claim: a referral whose `ref_exclude_spa` parses to the non-empty
tag set `["4"]` never matches a shelter with `shelter_spa = 4`.  The code
refutes it: the tags are strings while a normalized `shelter_spa` is the int
`4`, and Python's `4 == "4"` is `False`, so the exclusion never fires and the
pair matches.
-/
theorem exclude_spa_counterexample :
    splitTags (vStr "4") = ["4"] ∧
    isExactMatch [("ref_exclude_spa", vStr "4")]
      [("shelter_uid", vStr "S1"), ("shelter_spa", vInt 4)]
      [("S1", ⟨⟨2025, 1, 1⟩, 3⟩)] = .ok true := by
  decide

/--
C3.  The claim: a referral aged 40 fails against a shelter whose normalized
age-tag set is exactly `["seniors"]`.  The code refutes it: `is_exact_match`
reads the raw column name `"age_group"` (line 311) while
`normalize_shelters_df` stores the age tags under `"shelter_age"`, so on a
normalized shelter row the seniors-only restriction never fires and the pair
matches.
-/
theorem seniors_age_counterexample :
    ∃ sh : Row,
      normalizeShelterRow [("shelter_id", vStr "S1"), ("age_group", vStr "seniors")] = .ok sh ∧
      getRow sh "shelter_age" = vStr "seniors" ∧
      splitTags (getRow sh "shelter_age") = ["seniors"] ∧
      isExactMatch [("ref_age", vInt 40)] sh [("S1", ⟨⟨2025, 1, 1⟩, 3⟩)] = .ok true := by
  refine ⟨[("shelter_uid", vStr "S1"), ("shelter_name", vNone), ("shelter_spa", vNone),
    ("shelter_cities", vNone), ("shelter_age", vStr "seniors"), ("shelter_gender", vNone),
    ("shelter_entry_requirements", vNone), ("shelter_special_situation_restrictions", vNone),
    ("shelter_accessibility", vNone), ("shelter_health_services", vNone),
    ("shelter_room_style", vNone), ("shelter_storage", vNone), ("shelter_pets", vNone),
    ("shelter_meals", vNone), ("shelter_parking", vNone), ("shelter_vehicles", vNone),
    ("shelter_criminal_history", vNone), ("shelter_email", vNone), ("shelter_phone", vNone)],
    ?_, ?_, ?_, ?_⟩ <;> decide

/-- `containsSub` decides list containment. -/
theorem containsSub_iff {h n : List Char} : containsSub h n = true ↔ n <:+: h := by
  induction h with
  | nil => cases n <;> simp [containsSub]
  | cons a t ih =>
    rw [containsSub]
    simp [List.infix_cons_iff, ih]

/-- `strContains` decides Python's substring test. -/
theorem strContains_iff {hay needle : String} :
    strContains hay needle = true ↔ needle.data <:+: hay.data := by
  simp [strContains, containsSub_iff]

/-- Substring containment is transitive. -/
theorem strContains_trans {a b c : String} (h1 : strContains a b = true)
    (h2 : strContains b c = true) : strContains a c = true := by
  rw [strContains_iff] at h1 h2 ⊢
  exact h2.trans h1

/-- A string containing a non-empty needle is non-empty. -/
theorem ne_empty_of_strContains {s t : String} (h : strContains s t = true)
    (ht : t ≠ "") : s ≠ "" := by
  intro hs
  subst hs
  rw [strContains_iff] at h
  simp only [show ("" : String).data = [] from rfl, List.infix_nil] at h
  exact ht (by cases t; simp_all)

/-- `shelterAgeTags` never contains a tag other than `"all"` that the raw
`age_group` tags do not contain. -/
theorem shelterAgeTags_contains_false {sh : Row} {s : String} (hs : s ≠ "all")
    (h : (splitTags (getRow sh "age_group")).contains s = false) :
    (shelterAgeTags sh).contains s = false := by
  unfold shelterAgeTags
  split
  · simpa using fun hc => hs hc
  · exact h

/-- Non-empty shelter gender tags pass through `shelterGenderTags`. -/
theorem shelterGenderTags_eq {sh : Row} {l : List String}
    (h : splitTags (getRow sh "shelter_gender") = l) (hl : l ≠ []) :
    shelterGenderTags sh = l := by
  unfold shelterGenderTags
  rw [h]
  simp [hl]

/--
C4 (counterexample).  The claim says a referral whose resolved gender text
contains `"female"`/`"woman"` fails against *any* shelter whose gender tag
set is exactly `["single_women"]` even when everything else passes.  The
code refutes the unrestricted claim: a shelter whose `age_group` tags
contain `"seniors"` (or `"tay_teen"`) skips the gender filter entirely
(line 330), so a female referral aged 60 matches this `single_women`
seniors shelter.
-/
theorem gender_skip_counterexample :
    resolveGenderSource [("ref_gender_identity", vStr "Female"), ("ref_age", vInt 60)] =
      .ok "female" ∧
    splitTags (getRow [("shelter_uid", vStr "S1"), ("shelter_gender", vStr "single_women"),
      ("age_group", vStr "seniors")] "shelter_gender") = ["single_women"] ∧
    isExactMatch [("ref_gender_identity", vStr "Female"), ("ref_age", vInt 60)]
      [("shelter_uid", vStr "S1"), ("shelter_gender", vStr "single_women"),
        ("age_group", vStr "seniors")]
      [("S1", ⟨⟨2025, 1, 1⟩, 3⟩)] = .ok true := by
  decide

/--
C4 (amended).  For every referral whose resolved gender text contains the
substring `"female"` or `"woman"`, the male-keyword branch also fires
(`"male"` is a substring of `"female"`, `"man"` of `"woman"`), so the
referral fails `is_exact_match` against any shelter whose gender tag set is
exactly `["single_women"]` — *provided* the shelter's `age_group` tags make
it neither TAY- nor seniors-focused (otherwise the gender filter is skipped);
in particular this covers every normalized shelter row, which never carries
an `"age_group"` key.
-/
theorem gender_female_single_women_amended (ref sh : Row) (beds : BedsMap) (gs : String)
    (hgs : resolveGenderSource ref = .ok gs)
    (hfem : strContains gs "female" = true ∨ strContains gs "woman" = true)
    (hgender : splitTags (getRow sh "shelter_gender") = ["single_women"])
    (hsen : (splitTags (getRow sh "age_group")).contains "seniors" = false)
    (htay : (splitTags (getRow sh "age_group")).contains "tay_teen" = false) :
    isExactMatch ref sh beds = .ok false := by
  apply isExactMatch_false_of_genderFails
  have hne : gs ≠ "" := by
    rcases hfem with h | h
    · exact ne_empty_of_strContains h (by decide)
    · exact ne_empty_of_strContains h (by decide)
  have hmale : strContains gs "male" = true ∨ strContains gs "man" = true := by
    rcases hfem with h | h
    · exact .inl (strContains_trans h (by decide))
    · exact .inr (strContains_trans h (by decide))
  have hsen' := @shelterAgeTags_contains_false sh "seniors" (by decide) hsen
  have htay' := @shelterAgeTags_contains_false sh "tay_teen" (by decide) htay
  have hg := shelterGenderTags_eq hgender (by decide)
  unfold genderCheckFails
  rw [hgs]
  show Except.ok (genderFailsPure gs (shelterAgeTags sh) (shelterGenderTags sh)) = Except.ok true
  suffices hgf : genderFailsPure gs (shelterAgeTags sh) (shelterGenderTags sh) = true by rw [hgf]
  unfold genderFailsPure
  rw [hg, htay', hsen']
  have hcond : gs ≠ "" ∧ ¬(false || false) = true := ⟨hne, by decide⟩
  rw [if_pos hcond]
  rcases hmale with h | h <;> simp +decide [h]

/--
C4 (witness).  The amended theorem applied to a concrete female referral and
a concrete `single_women` shelter that is not age-focused.
-/
theorem gender_female_single_women_witness :
    isExactMatch [("ref_gender_identity", vStr "Female")]
      [("shelter_uid", vStr "S1"), ("shelter_gender", vStr "single_women")]
      [("S1", ⟨⟨2025, 1, 1⟩, 3⟩)] = .ok false :=
  gender_female_single_women_amended _ _ _ "female" (by decide) (.inl (by decide))
    (by decide) (by decide) (by decide)

/--
C5.  A referral without a vehicle (`ref_vehicle` coerces to false) fails
against any shelter whose programs contain a safe-parking-style tag; and
`normalize_shelters_df` never emits a `shelter_programs` field (the column is
commented out in the source), so normalized shelter rows never carry one.
-/
theorem no_vehicle_safe_parking :
    (∀ (ref sh : Row) (beds : BedsMap),
      toBool (getRow ref "ref_vehicle") = false →
      (splitTags (getRow sh "shelter_programs")).any safeParkTag = true →
      isExactMatch ref sh beds = .ok false) ∧
    (∀ (raw out : Row), normalizeShelterRow raw = .ok out →
      (out.map Prod.fst).contains "shelter_programs" = false) := by
  constructor
  · intro ref sh beds hveh hsafe
    apply isExactMatch_false_of_vehicleFails
    unfold vehicleCheckFails
    rw [hveh]
    simpa using hsafe
  · intro raw out h
    unfold normalizeShelterRow at h
    rcases hs : toIntOrNone (getRow raw "spa") with e | spa <;> rw [hs] at h
    · cases h
    · cases h
      rfl

/--
C5 (witness).  The theorem applied to a concrete no-vehicle referral, a
shelter offering a `"Safe Parking Program"`, and a concrete raw shelter row.
-/
theorem no_vehicle_safe_parking_witness :
    isExactMatch [] [("shelter_uid", vStr "S1"), ("shelter_programs", vStr "Safe Parking Program")]
      [("S1", ⟨⟨2025, 1, 1⟩, 3⟩)] = .ok false ∧
    (([("shelter_uid", vStr "S1"), ("shelter_name", vNone), ("shelter_spa", vNone),
      ("shelter_cities", vNone), ("shelter_age", vNone), ("shelter_gender", vNone),
      ("shelter_entry_requirements", vNone), ("shelter_special_situation_restrictions", vNone),
      ("shelter_accessibility", vNone), ("shelter_health_services", vNone),
      ("shelter_room_style", vNone), ("shelter_storage", vNone), ("shelter_pets", vNone),
      ("shelter_meals", vNone), ("shelter_parking", vNone), ("shelter_vehicles", vNone),
      ("shelter_criminal_history", vNone), ("shelter_email", vNone),
      ("shelter_phone", vNone)] : Row).map Prod.fst).contains "shelter_programs" = false :=
  ⟨no_vehicle_safe_parking.1 [] _ _ (by decide) (by decide),
   no_vehicle_safe_parking.2 [("shelter_id", vStr "S1")] _ (by decide)⟩

/--
C6 (counterexample).  The claim says `_split_tags` drops the literal tokens
`"nan"`/`"none"` from the resulting list, with
`_split_tags("A, b,,nan") = ["a", "b"]`.  The code refutes it: the
`"nan"`/`"none"` check (line 89) applies only to the *whole* trimmed
lower-cased string, so the `"nan"` piece survives and the result is
`["a", "b", "nan"]`.
-/
theorem split_tags_counterexample :
    splitTags (vStr "A, b,,nan") = ["a", "b", "nan"] ∧
    splitTags (vStr "A, b,,nan") ≠ ["a", "b"] := by
  decide

/--
C6 (amended).  `_split_tags` lower-cases, trims, splits on commas, trims each
piece and drops empty pieces; the literal tokens `"nan"`/`"none"` are dropped
only when the *entire* trimmed lower-cased input equals them, while
individual `"nan"`/`"none"` pieces are kept:
`_split_tags("A, b,,nan") = ["a", "b", "nan"]`.
-/
theorem split_tags_amended :
    (∀ v : PyVal, (splitTags v).all (fun t => !(t == "")) = true) ∧
    splitTags (vStr " A, b,,nan ") = ["a", "b", "nan"] ∧
    splitTags (vStr "A, b,, ") = ["a", "b"] ∧
    splitTags (vStr "nan") = [] ∧
    splitTags (vStr " NONE ") = [] ∧
    splitTags vNone = [] ∧
    splitTags (vFloat .nan) = [] := by
  refine ⟨?_, by decide, by decide, by decide, by decide, by decide, by decide⟩
  have key : ∀ s : String,
      ((splitOnChar s ',').filterMap
        (fun p => if pyStrip p = "" then none else some (pyStrip p))).all
        (fun t => !(t == "")) = true := by
    intro s
    rw [List.all_eq_true]
    intro t ht
    rcases List.mem_filterMap.mp ht with ⟨p, _, hpe⟩
    by_cases hz : pyStrip p = ""
    · rw [if_pos hz] at hpe
      cases hpe
    · rw [if_neg hz] at hpe
      cases hpe
      simpa using hz
  intro v
  unfold splitTags
  rcases v with _ | b | n | f | s | dt
  · decide
  · dsimp only
    split_ifs <;> simp [key]
  · dsimp only
    split_ifs <;> simp [key]
  · rcases f with q | _ | neg
    · dsimp only
      split_ifs <;> simp [key]
    · decide
    · dsimp only
      split_ifs <;> simp [key]
  · dsimp only
    split_ifs <;> simp [key]
  · dsimp only
    split_ifs <;> simp [key]

/--
C7 (counterexample).  The claim says `_to_int_or_none` is total and never
raises.  The code refutes it: `int(float("inf"))` and `int(inf)` raise
`OverflowError`, which only the `ValueError` handlers of lines 59-66 do not
catch.
-/
theorem to_int_or_none_counterexample :
    toIntOrNone (vFloat (.inf false)) = .error .overflowError ∧
    toIntOrNone (vStr "inf") = .error .overflowError := by
  decide

/-- The string branch of `_to_int_or_none` raises exactly on text whose
`int(...)` fails and whose `float(...)` is infinite. -/
theorem strToIntOrNone_cases (s : String) :
    (((parseIntQ s).isNone &&
        (match parseFloatQ s with | some (.inf _) => true | _ => false) &&
        !(s == "")) = false → ∃ r : Option ℤ, strToIntOrNone s = .ok r) ∧
    (((parseIntQ s).isNone &&
        (match parseFloatQ s with | some (.inf _) => true | _ => false) &&
        !(s == "")) = true → strToIntOrNone s = .error .overflowError) := by
  unfold strToIntOrNone
  by_cases hs : s = ""
  · subst hs
    exact ⟨fun _ => ⟨none, by rw [if_pos rfl]⟩, fun h => by simp at h⟩
  · rw [if_neg hs]
    rcases hi : parseIntQ s with _ | n
    · rcases hf : parseFloatQ s with _ | f
      · exact ⟨fun _ => ⟨none, rfl⟩, fun h => by simp [hi, hf] at h⟩
      · rcases f with q | _ | neg
        · exact ⟨fun _ => ⟨some (ratTrunc q), rfl⟩, fun h => by simp [hi, hf] at h⟩
        · exact ⟨fun _ => ⟨none, rfl⟩, fun h => by simp [hi, hf] at h⟩
        · refine ⟨fun h => ?_, fun _ => rfl⟩
          simp [hs] at h
    · exact ⟨fun _ => ⟨some n, rfl⟩, fun h => by simp [hi] at h⟩

set_option maxRecDepth 20000 in
/--
C7 (amended).  `_to_int_or_none` never raises on `None`, NaN, finite ints and
floats, bools, or any value whose stripped string form does not produce an
infinite `float(...)`; parsable numeric text yields the truncated integer and
unparsable text yields `None`.  It *does* raise `OverflowError` exactly on
the infinite inputs: `float("inf")`, the strings `"inf"`/`"infinity"`, and
decimal literals overflowing the double range, which CPython's `float()`
silently turns into `inf` — so `_to_int_or_none("1e999")` and
`_to_int_or_none("2e308")` raise as well.
-/
theorem to_int_or_none_amended :
    (∀ v : PyVal, infLikeInput v = false → ∃ r : Option ℤ, toIntOrNone v = .ok r) ∧
    (∀ v : PyVal, infLikeInput v = true → toIntOrNone v = .error .overflowError) ∧
    toIntOrNone (vStr "5.0") = .ok (some 5) ∧
    toIntOrNone (vStr " -7.9 ") = .ok (some (-7)) ∧
    toIntOrNone (vFloat .nan) = .ok none ∧
    toIntOrNone vNone = .ok none ∧
    toIntOrNone (vStr "abc") = .ok none ∧
    toIntOrNone (vStr "1e999") = .error .overflowError ∧
    toIntOrNone (vStr "2e308") = .error .overflowError ∧
    toIntOrNone (vStr "1e308") = .ok (some ((10 : ℤ) ^ 308)) := by
  refine ⟨?_, ?_, by decide, by decide, by decide, by decide, by decide, by decide, by decide,
    by decide⟩
  · intro v hv
    rcases v with _ | b | n | f | s | dt
    · exact ⟨none, rfl⟩
    · exact ⟨some (if b then 1 else 0), rfl⟩
    · exact ⟨some n, rfl⟩
    · rcases f with q | _ | neg
      · exact ⟨some (ratTrunc q), rfl⟩
      · exact ⟨none, rfl⟩
      · simp [infLikeInput] at hv
    · exact (strToIntOrNone_cases _).1 (by simpa [infLikeInput] using hv)
    · exact (strToIntOrNone_cases _).1 (by simpa [infLikeInput] using hv)
  · intro v hv
    rcases v with _ | b | n | f | s | dt
    · simp [infLikeInput] at hv
    · simp [infLikeInput] at hv
    · simp [infLikeInput] at hv
    · rcases f with q | _ | neg
      · simp [infLikeInput] at hv
      · simp [infLikeInput] at hv
      · rfl
    · exact (strToIntOrNone_cases _).2 (by simpa [infLikeInput] using hv)
    · exact (strToIntOrNone_cases _).2 (by simpa [infLikeInput] using hv)

set_option maxRecDepth 20000 in
/--
C7 (witness).  The amended theorem applied at `"abc"` (total, `None`), at
`"inf"` and at the overflowing literal `"1e999"` (both raise
`OverflowError`).
-/
theorem to_int_or_none_amended_witness :
    (∃ r : Option ℤ, toIntOrNone (vStr "abc") = .ok r) ∧
    toIntOrNone (vStr "inf") = .error .overflowError ∧
    toIntOrNone (vStr "1e999") = .error .overflowError :=
  ⟨to_int_or_none_amended.1 (vStr "abc") (by decide),
   to_int_or_none_amended.2.1 (vStr "inf") (by decide),
   to_int_or_none_amended.2.1 (vStr "1e999") (by decide)⟩

/-- Date comparison is transitive. -/
theorem dateLt_trans {a b c : PyDate} (h1 : dateLt a b = true) (h2 : dateLt b c = true) :
    dateLt a c = true := by
  simp only [dateLt, decide_eq_true_eq] at h1 h2 ⊢
  omega

/-- Non-strict date comparison (`¬ <`) is transitive. -/
theorem dateLt_false_trans {a b c : PyDate} (h1 : dateLt a b = false) (h2 : dateLt b c = false) :
    dateLt a c = false := by
  simp only [dateLt, decide_eq_false_iff_not] at h1 h2 ⊢
  omega

/-- Date comparison is irreflexive. -/
theorem dateLt_irrefl (a : PyDate) : dateLt a a = false := by
  simp only [dateLt, decide_eq_false_iff_not]
  omega

/-- Date comparison is asymmetric. -/
theorem dateLt_asymm {a b : PyDate} (h : dateLt a b = true) : dateLt b a = false := by
  simp only [dateLt, decide_eq_true_eq, decide_eq_false_iff_not] at h ⊢
  omega

/-- Updating a dict and looking the same key up. -/
theorem lookupStr_insertD_self (l : List (String × BedInfo)) (k : String) (v : BedInfo) :
    lookupStr (insertD l k v) k = some v := by
  induction l with
  | nil => simp [insertD, lookupStr, List.find?]
  | cons p t ih =>
    rcases p with ⟨k', v'⟩
    unfold insertD
    by_cases h : k' = k
    · simp [h, lookupStr, List.find?]
    · simp only [if_neg h]
      rw [lookupStr, List.find?]
      simp only [show (k' == k) = false by simpa using h]
      exact ih

/-- Updating a dict leaves other keys' lookups unchanged. -/
theorem lookupStr_insertD_ne (l : List (String × BedInfo)) (k : String) (v : BedInfo)
    (u : String) (h : k ≠ u) : lookupStr (insertD l k v) u = lookupStr l u := by
  induction l with
  | nil => simp [insertD, lookupStr, List.find?, show (k == u) = false by simpa using h]
  | cons p t ih =>
    rcases p with ⟨k', v'⟩
    unfold insertD
    by_cases hk : k' = k
    · subst hk
      simp [lookupStr, List.find?, show (k' == u) = false by simpa using h]
    · simp only [if_neg hk]
      unfold lookupStr
      rw [List.find?, List.find?]
      by_cases hu : k' = u
      · simp [hu]
      · simp only [show (k' == u) = false by simpa using hu]
        exact ih

/-- One loop iteration, observed through a lookup at `u`: a record with a
missing uid or date changes nothing; a record for a different shelter changes
nothing; a record for `u` applies the keep-strictly-latest step. -/
theorem lookupStr_latestStep_eq (acc : List (String × BedInfo)) (n : NormBed) (u : String) :
    lookupStr (latestStep acc n) u =
      match n.shelterUid, n.date with
      | some u', some d =>
        if u' = u then bestStepInfo (lookupStr acc u) (u', d, n.bedsAvailable)
        else lookupStr acc u
      | _, _ => lookupStr acc u := by
  unfold latestStep
  rcases hu : n.shelterUid with _ | u' <;> rcases hd : n.date with _ | d <;>
    dsimp only <;> try rfl
  rcases hc : lookupStr acc u' with _ | cur <;> dsimp only
  · by_cases huu : u' = u
    · subst huu
      rw [if_pos rfl, lookupStr_insertD_self]
      unfold bestStepInfo
      rw [hc]
    · rw [if_neg huu, lookupStr_insertD_ne _ _ _ _ huu]
  · by_cases huu : u' = u
    · subst huu
      rw [if_pos rfl]
      unfold bestStepInfo
      rw [hc]
      dsimp only
      rcases hdl : dateLt cur.date d
      · simpa using hc
      · simpa using lookupStr_insertD_self acc u' ⟨d, n.bedsAvailable⟩
    · rw [if_neg huu]
      split
      · exact lookupStr_insertD_ne _ _ _ _ huu
      · rfl

/-- The whole `get_latest_beds_by_shelter` fold, observed through a lookup at
`u`, is the keep-strictly-latest fold over that shelter's good entries. -/
theorem lookupStr_foldl_latestStep (ns : List NormBed) :
    ∀ (acc : List (String × BedInfo)) (u : String),
      lookupStr (ns.foldl latestStep acc) u =
        ((goodEntries ns).filter (fun e => e.1 == u)).foldl bestStepInfo (lookupStr acc u) := by
  induction ns with
  | nil => intro acc u; rfl
  | cons n t ih =>
    intro acc u
    rw [List.foldl_cons, ih, lookupStr_latestStep_eq]
    simp only [goodEntries, List.filterMap_cons]
    rcases hu : n.shelterUid with _ | u' <;> rcases hd : n.date with _ | d <;>
      dsimp only <;> try rfl
    rw [List.filter_cons]
    by_cases huu : u' = u
    · subst huu
      rw [if_pos rfl, if_pos (by simp), List.foldl_cons]
    · rw [if_neg huu, if_neg (by simpa using huu)]

/-- One step from an existing candidate, pushed inside `some`. -/
theorem bestStepInfo_some (i : BedInfo) (e : String × PyDate × ℤ) :
    bestStepInfo (some i) e =
      some (if dateLt i.date e.2.1 then ⟨e.2.1, e.2.2⟩ else i) := by
  unfold bestStepInfo
  rcases h : dateLt i.date e.2.1 <;> simp [h]

/-- The defining equation of `selectLatest` on a cons cell. -/
theorem selectLatest_cons (e : String × PyDate × ℤ) (t : List (String × PyDate × ℤ)) :
    selectLatest (e :: t) =
      match selectLatest t with
      | none => some e
      | some m => if dateLt e.2.1 m.2.1 then some m else some e := rfl

/-- Peeling one entry off `bestOfInfo`. -/
theorem bestOfInfo_cons (i : BedInfo) (e : String × PyDate × ℤ)
    (t : List (String × PyDate × ℤ)) :
    bestOfInfo i (e :: t) =
      bestOfInfo (if dateLt i.date e.2.1 then ⟨e.2.1, e.2.2⟩ else i) t := by
  unfold bestOfInfo
  rw [selectLatest_cons]
  rcases hm : selectLatest t with _ | m <;> dsimp only
  by_cases h2 : dateLt i.date e.2.1 = true
  · rw [if_pos h2]
    dsimp only
    by_cases h1 : dateLt e.2.1 m.2.1 = true
    · rw [if_pos h1]
      dsimp only
      rw [if_pos (dateLt_trans h2 h1), if_pos h1]
    · rw [if_neg h1]
      dsimp only
      rw [if_pos h2, if_neg h1]
  · rw [if_neg h2]
    by_cases h1 : dateLt e.2.1 m.2.1 = true
    · rw [if_pos h1]
    · rw [if_neg h1]
      dsimp only
      have h2' : dateLt i.date e.2.1 = false := by simpa using h2
      have h1' : dateLt e.2.1 m.2.1 = false := by simpa using h1
      rw [h2', dateLt_false_trans h2' h1']
      simp

/-- Folding the keep-strictly-latest step from a candidate record. -/
theorem foldl_bestStepInfo_some (l : List (String × PyDate × ℤ)) :
    ∀ i : BedInfo, l.foldl bestStepInfo (some i) = some (bestOfInfo i l) := by
  induction l with
  | nil => intro i; rfl
  | cons e t ih =>
    intro i
    rw [List.foldl_cons, bestStepInfo_some, ih, bestOfInfo_cons]

/-- Folding the keep-strictly-latest step from nothing selects the first
entry attaining the maximal date. -/
theorem foldl_bestStepInfo_none (l : List (String × PyDate × ℤ)) :
    l.foldl bestStepInfo none =
      Option.map (fun e => BedInfo.mk e.2.1 e.2.2) (selectLatest l) := by
  cases l with
  | nil => rfl
  | cons e t =>
    rw [List.foldl_cons,
      show bestStepInfo none e = some ⟨e.2.1, e.2.2⟩ from rfl,
      foldl_bestStepInfo_some, selectLatest_cons]
    unfold bestOfInfo
    rcases hm : selectLatest t with _ | m <;> dsimp only
    · rfl
    · rcases h : dateLt e.2.1 m.2.1 <;> simp [h]

/-- `selectLatest l = none` exactly on the empty list. -/
theorem selectLatest_eq_none {l : List (String × PyDate × ℤ)} (h : selectLatest l = none) :
    l = [] := by
  cases l with
  | nil => rfl
  | cons e t =>
    rw [selectLatest_cons] at h
    rcases hm : selectLatest t with _ | m <;> rw [hm] at h <;> dsimp only at h
    · cases h
    · split at h <;> cases h

/-- The selected entry belongs to the list and attains the maximal date. -/
theorem selectLatest_mem_max {l : List (String × PyDate × ℤ)} :
    ∀ {m}, selectLatest l = some m → m ∈ l ∧ ∀ e ∈ l, dateLt m.2.1 e.2.1 = false := by
  induction l with
  | nil => intro m h; cases h
  | cons e t ih =>
    intro m h
    rw [selectLatest_cons] at h
    rcases hm : selectLatest t with _ | m' <;> rw [hm] at h <;> dsimp only at h
    · cases h
      have ht := selectLatest_eq_none hm
      subst ht
      exact ⟨List.mem_cons_self _ _, by simp [dateLt_irrefl]⟩
    · rcases ih hm with ⟨hmem, hmax⟩
      split at h <;> cases h
      · rename_i hlt
        refine ⟨List.mem_cons_of_mem _ hmem, ?_⟩
        intro x hx
        rcases List.mem_cons.mp hx with hx | hx
        · subst hx
          exact dateLt_asymm hlt
        · exact hmax x hx
      · rename_i hlt
        have hlt' : dateLt e.2.1 m'.2.1 = false := by
          simpa using hlt
        refine ⟨List.mem_cons_self _ _, ?_⟩
        intro x hx
        rcases List.mem_cons.mp hx with hx | hx
        · subst hx
          exact dateLt_irrefl _
        · exact dateLt_false_trans hlt' (hmax x hx)

/-- The first entry wins when no later entry has a strictly greater date
(ties included). -/
theorem selectLatest_first (e : String × PyDate × ℤ) (t : List (String × PyDate × ℤ))
    (h : ∀ x ∈ t, dateLt e.2.1 x.2.1 = false) : selectLatest (e :: t) = some e := by
  rw [selectLatest_cons]
  rcases hm : selectLatest t with _ | m
  · rfl
  · have hmem := (selectLatest_mem_max hm).1
    dsimp only
    rw [h m hmem]
    simp

/--
C8 (counterexample).  The claim says that among several records for one
shelter sharing the same maximum date, the *last* one encountered wins.  The
code refutes it: the comparison `d > latest[uid]["date"]` is strict, so a
later record with an *equal* date does not replace the stored one and the
*first* such record wins — here the record with 1 bed, not the later one
with 2.
-/
theorem latest_beds_tie_counterexample :
    getLatestBedsByShelter
      [[("ShelterID", vStr "SHELTER-001"), ("BedsAvailable", vInt 1), ("Date", vStr "2025-01-01")],
       [("ShelterID", vStr "SHELTER-001"), ("BedsAvailable", vInt 2), ("Date", vStr "2025-01-01")]]
      = .ok [("SHELTER-001", ⟨⟨2025, 1, 1⟩, 1⟩)] ∧
    ¬ getLatestBedsByShelter
      [[("ShelterID", vStr "SHELTER-001"), ("BedsAvailable", vInt 1), ("Date", vStr "2025-01-01")],
       [("ShelterID", vStr "SHELTER-001"), ("BedsAvailable", vInt 2), ("Date", vStr "2025-01-01")]]
      = .ok [("SHELTER-001", ⟨⟨2025, 1, 1⟩, 2⟩)] := by
  constructor
  · decide
  · intro h
    rw [show getLatestBedsByShelter
      [[("ShelterID", vStr "SHELTER-001"), ("BedsAvailable", vInt 1), ("Date", vStr "2025-01-01")],
       [("ShelterID", vStr "SHELTER-001"), ("BedsAvailable", vInt 2), ("Date", vStr "2025-01-01")]]
      = .ok [("SHELTER-001", ⟨⟨2025, 1, 1⟩, 1⟩)] from by decide] at h
    cases h

/--
C8 (amended).  For every list of raw bed rows, `get_latest_beds_by_shelter`
retains, per shelter id, only a record attaining the maximum date; rows with
a missing shelter id or a missing/unparseable date are dropped entirely; and
among several records for one shelter sharing the maximal date, the *first*
one encountered in input order wins (the comparison being strict `>`, not
`>=`).  Formally: every lookup in the produced dict is `selectLatest` of
that shelter's surviving entries — where `selectLatest` keeps an entry
unless a strictly later-dated entry follows, so the selected entry attains
the maximum (second conjunct), and an entry whose date is `≥` every later
entry's — ties included — is the one selected (third conjunct).
-/
theorem get_latest_beds_amended (rows : List Row) (ns : List NormBed) (out : BedsMap)
    (hmap : rows.mapM normalizeBedRow = .ok ns)
    (hout : getLatestBedsByShelter rows = .ok out) :
    (∀ u : String,
      lookupStr out u =
        Option.map (fun e => BedInfo.mk e.2.1 e.2.2)
          (selectLatest ((goodEntries ns).filter (fun e => e.1 == u)))) ∧
    (∀ (u : String) (v : BedInfo), lookupStr out u = some v →
      (∀ e ∈ goodEntries ns, e.1 = u → dateLt v.date e.2.1 = false) ∧
      (∃ e ∈ goodEntries ns, e.1 = u ∧ e.2.1 = v.date ∧ e.2.2 = v.bedsAvailable)) ∧
    (∀ (e : String × PyDate × ℤ) (t : List (String × PyDate × ℤ)),
      (∀ x ∈ t, dateLt e.2.1 x.2.1 = false) → selectLatest (e :: t) = some e) := by
  have hchar : ∀ u : String,
      lookupStr out u =
        Option.map (fun e => BedInfo.mk e.2.1 e.2.2)
          (selectLatest ((goodEntries ns).filter (fun e => e.1 == u))) := by
    intro u
    unfold getLatestBedsByShelter at hout
    rw [hmap] at hout
    cases hout
    rw [show lookupStr (List.foldl latestStep [] ns) u =
        ((goodEntries ns).filter (fun e => e.1 == u)).foldl bestStepInfo (lookupStr [] u)
      from lookupStr_foldl_latestStep ns [] u]
    rw [show lookupStr [] u = none from rfl, foldl_bestStepInfo_none]
  refine ⟨hchar, ?_, fun e t h => selectLatest_first e t h⟩
  intro u v hv
  rw [hchar u] at hv
  rcases hsel : selectLatest ((goodEntries ns).filter (fun e => e.1 == u)) with _ | m <;>
    rw [hsel] at hv <;> simp only [Option.map] at hv
  · cases hv
  · cases hv
    rcases selectLatest_mem_max hsel with ⟨hmem, hmax⟩
    rcases List.mem_filter.mp hmem with ⟨hmem', hkey⟩
    constructor
    · intro e he hkeye
      exact hmax e (List.mem_filter.mpr ⟨he, by simpa using hkeye⟩)
    · exact ⟨m, hmem', by simpa using hkey, rfl, rfl⟩

/--
C8 (witness).  The amended theorem applied to the two-row tie input: the
lookup for `SHELTER-001` is `selectLatest` of its two entries — the first
record (1 bed), not the last.
-/
theorem get_latest_beds_amended_witness :
    lookupStr [("SHELTER-001", ⟨⟨2025, 1, 1⟩, 1⟩)] "SHELTER-001" =
      Option.map (fun e => BedInfo.mk e.2.1 e.2.2)
        (selectLatest ((goodEntries
          [⟨some "SHELTER-001", 1, some ⟨2025, 1, 1⟩⟩,
           ⟨some "SHELTER-001", 2, some ⟨2025, 1, 1⟩⟩]).filter
          (fun e => e.1 == "SHELTER-001"))) :=
  (get_latest_beds_amended
    [[("ShelterID", vStr "SHELTER-001"), ("BedsAvailable", vInt 1), ("Date", vStr "2025-01-01")],
     [("ShelterID", vStr "SHELTER-001"), ("BedsAvailable", vInt 2), ("Date", vStr "2025-01-01")]]
    [⟨some "SHELTER-001", 1, some ⟨2025, 1, 1⟩⟩,
     ⟨some "SHELTER-001", 2, some ⟨2025, 1, 1⟩⟩]
    [("SHELTER-001", ⟨⟨2025, 1, 1⟩, 1⟩)]
    (by decide) (by decide)).1 "SHELTER-001"

/-- Emptiness of `collectMatchRows` with no shelters. -/
theorem collectMatchRows_nil_shelters (referrals : List Row) (beds : BedsMap) :
    collectMatchRows referrals [] beds = .ok [] := by
  induction referrals with
  | nil => rfl
  | cons r rs ih =>
    unfold collectMatchRows
    rw [show collectForRef r [] beds = .ok [] from rfl, ih]
    rfl

/--
C9.  `build_matches` on an empty referral collection or an empty shelter
collection — and more generally whenever zero pairs pass the rules — returns,
without error, an empty result whose column set is exactly `MATCH_COLUMNS`
in order.
-/
theorem build_matches_empty :
    (∀ (referrals shelters : List Row) (beds : BedsMap),
      referrals = [] ∨ shelters = [] →
      buildMatches referrals shelters beds = .ok ⟨MATCH_COLUMNS, []⟩) ∧
    (∀ (referrals shelters : List Row) (beds : BedsMap),
      collectMatchRows referrals shelters beds = .ok [] →
      buildMatches referrals shelters beds = .ok ⟨MATCH_COLUMNS, []⟩) := by
  have h2 : ∀ (referrals shelters : List Row) (beds : BedsMap),
      collectMatchRows referrals shelters beds = .ok [] →
      buildMatches referrals shelters beds = .ok ⟨MATCH_COLUMNS, []⟩ := by
    intro referrals shelters beds h
    unfold buildMatches
    rw [h]
    rfl
  refine ⟨?_, h2⟩
  intro referrals shelters beds h
  rcases h with h | h <;> subst h
  · exact h2 _ _ _ rfl
  · exact h2 _ _ _ (collectMatchRows_nil_shelters _ _)

/--
C9 (witness).  The theorem applied to concrete empty inputs.
-/
theorem build_matches_empty_witness :
    buildMatches [] [[("shelter_uid", vStr "S1")]] [] = .ok ⟨MATCH_COLUMNS, []⟩ ∧
    buildMatches [[("ref_row_id", vInt 1)]] [] [] = .ok ⟨MATCH_COLUMNS, []⟩ :=
  ⟨build_matches_empty.1 [] [[("shelter_uid", vStr "S1")]] [] (Or.inl rfl),
   build_matches_empty.1 [[("ref_row_id", vInt 1)]] [] [] (Or.inr rfl)⟩

/-- `charListLt` is transitive. -/
theorem charListLt_trans : ∀ a b c : List Char,
    charListLt a b = true → charListLt b c = true → charListLt a c = true := by
  intro a
  induction a with
  | nil =>
    intro b c h1 h2
    cases b with
    | nil => simp [charListLt] at h1
    | cons y ys =>
      cases c with
      | nil => simp [charListLt] at h2
      | cons z zs => simp [charListLt]
  | cons x xs ih =>
    intro b c h1 h2
    cases b with
    | nil => simp [charListLt] at h1
    | cons y ys =>
      cases c with
      | nil => simp [charListLt] at h2
      | cons z zs =>
        simp only [charListLt, decide_eq_true_eq] at h1 h2 ⊢
        rcases h1 with h1 | ⟨he1, h1'⟩ <;> rcases h2 with h2 | ⟨he2, h2'⟩
        · exact Or.inl (lt_trans h1 h2)
        · exact Or.inl (he2 ▸ h1)
        · exact Or.inl (he1 ▸ h2)
        · subst he1
          subst he2
          exact Or.inr ⟨rfl, ih ys zs h1' h2'⟩

/-- `charListLt` is trichotomous. -/
theorem charListLt_trichotomy : ∀ a b : List Char,
    charListLt a b = true ∨ charListLt b a = true ∨ a = b := by
  intro a
  induction a with
  | nil =>
    intro b
    cases b <;> simp [charListLt]
  | cons x xs ih =>
    intro b
    cases b with
    | nil => simp [charListLt]
    | cons y ys =>
      rcases lt_trichotomy x y with h | h | h
      · exact Or.inl (by simp [charListLt, h])
      · subst h
        rcases ih ys with h' | h' | h'
        · exact Or.inl (by simp [charListLt, h'])
        · exact Or.inr (Or.inl (by simp [charListLt, h']))
        · exact Or.inr (Or.inr (by rw [h']))
      · exact Or.inr (Or.inl (by simp [charListLt, h]))

/-- `cellKeyLt` is transitive. -/
theorem cellKeyLt_trans (x y z : Nat × ℚ × List Char)
    (h1 : cellKeyLt x y = true) (h2 : cellKeyLt y z = true) : cellKeyLt x z = true := by
  simp only [cellKeyLt, decide_eq_true_eq] at h1 h2 ⊢
  rcases h1 with h1 | ⟨e1, h1⟩ <;> rcases h2 with h2 | ⟨e2, h2⟩
  · exact Or.inl (lt_trans h1 h2)
  · exact Or.inl (e2 ▸ h1)
  · exact Or.inl (e1 ▸ h2)
  · refine Or.inr ⟨e1.trans e2, ?_⟩
    rcases h1 with h1 | ⟨f1, h1⟩ <;> rcases h2 with h2 | ⟨f2, h2⟩
    · exact Or.inl (lt_trans h1 h2)
    · exact Or.inl (f2 ▸ h1)
    · exact Or.inl (f1 ▸ h2)
    · exact Or.inr ⟨f1.trans f2, charListLt_trans _ _ _ h1 h2⟩

/-- `cellKeyLt` is trichotomous. -/
theorem cellKeyLt_trichotomy (x y : Nat × ℚ × List Char) :
    cellKeyLt x y = true ∨ cellKeyLt y x = true ∨ x = y := by
  simp only [cellKeyLt, decide_eq_true_eq]
  rcases lt_trichotomy x.1 y.1 with h | h | h
  · exact Or.inl (Or.inl h)
  · rcases lt_trichotomy x.2.1 y.2.1 with h' | h' | h'
    · exact Or.inl (Or.inr ⟨h, Or.inl h'⟩)
    · rcases charListLt_trichotomy x.2.2 y.2.2 with h'' | h'' | h''
      · exact Or.inl (Or.inr ⟨h, Or.inr ⟨h', h''⟩⟩)
      · exact Or.inr (Or.inl (Or.inr ⟨h.symm, Or.inr ⟨h'.symm, h''⟩⟩))
      · refine Or.inr (Or.inr ?_)
        rcases x with ⟨x1, x2, x3⟩
        rcases y with ⟨y1, y2, y3⟩
        simp only at h h' h''
        simp [h, h', h'']
    · exact Or.inr (Or.inl (Or.inr ⟨h.symm, Or.inl h'⟩))
  · exact Or.inr (Or.inl (Or.inl h))

/-- `key3Lt` is transitive. -/
theorem key3Lt_trans (x y z :
      (Nat × ℚ × List Char) × (Nat × ℚ × List Char) × (Nat × ℚ × List Char))
    (h1 : key3Lt x y = true) (h2 : key3Lt y z = true) : key3Lt x z = true := by
  simp only [key3Lt, decide_eq_true_eq] at h1 h2 ⊢
  rcases h1 with h1 | ⟨e1, h1⟩ <;> rcases h2 with h2 | ⟨e2, h2⟩
  · exact Or.inl (cellKeyLt_trans _ _ _ h1 h2)
  · exact Or.inl (e2 ▸ h1)
  · exact Or.inl (e1 ▸ h2)
  · refine Or.inr ⟨e1.trans e2, ?_⟩
    rcases h1 with h1 | ⟨f1, h1⟩ <;> rcases h2 with h2 | ⟨f2, h2⟩
    · exact Or.inl (cellKeyLt_trans _ _ _ h1 h2)
    · exact Or.inl (f2 ▸ h1)
    · exact Or.inl (f1 ▸ h2)
    · exact Or.inr ⟨f1.trans f2, cellKeyLt_trans _ _ _ h1 h2⟩

/-- `key3Lt` is trichotomous. -/
theorem key3Lt_trichotomy (x y :
      (Nat × ℚ × List Char) × (Nat × ℚ × List Char) × (Nat × ℚ × List Char)) :
    key3Lt x y = true ∨ key3Lt y x = true ∨ x = y := by
  simp only [key3Lt, decide_eq_true_eq]
  rcases cellKeyLt_trichotomy x.1 y.1 with h | h | h
  · exact Or.inl (Or.inl h)
  · exact Or.inr (Or.inl (Or.inl h))
  · rcases cellKeyLt_trichotomy x.2.1 y.2.1 with h' | h' | h'
    · exact Or.inl (Or.inr ⟨h, Or.inl h'⟩)
    · exact Or.inr (Or.inl (Or.inr ⟨h.symm, Or.inl h'⟩))
    · rcases cellKeyLt_trichotomy x.2.2 y.2.2 with h'' | h'' | h''
      · exact Or.inl (Or.inr ⟨h, Or.inr ⟨h', h''⟩⟩)
      · exact Or.inr (Or.inl (Or.inr ⟨h.symm, Or.inr ⟨h'.symm, h''⟩⟩))
      · refine Or.inr (Or.inr ?_)
        rcases x with ⟨x1, x2, x3⟩
        rcases y with ⟨y1, y2, y3⟩
        simp only at h h' h''
        simp [h, h', h'']

/-- Rows with equal sort keys compare `≤` in both directions. -/
theorem rowLe_of_key_eq {a b : Row} (h : rowSortKey a = rowSortKey b) : rowLe a b := by
  unfold rowLe rowLeB
  simp [h]

instance : IsTotal Row rowLe :=
  ⟨fun a b => by
    unfold rowLe rowLeB
    rcases key3Lt_trichotomy (rowSortKey a) (rowSortKey b) with h | h | h
    · left
      simp [h]
    · right
      simp [h]
    · left
      simp [h]⟩

instance : IsTrans Row rowLe :=
  ⟨fun a b c h1 h2 => by
    unfold rowLe rowLeB at h1 h2 ⊢
    rcases Bool.or_eq_true_iff.mp h1 with h1 | h1 <;>
      rcases Bool.or_eq_true_iff.mp h2 with h2 | h2
    · simp [key3Lt_trans _ _ _ h1 h2]
    · have : rowSortKey b = rowSortKey c := by simpa using h2
      simp [this ▸ h1]
    · have : rowSortKey a = rowSortKey b := by simpa using h1
      simp [this ▸ h2]
    · have hab : rowSortKey a = rowSortKey b := by simpa using h1
      have hbc : rowSortKey b = rowSortKey c := by simpa using h2
      simp [hab.trans hbc]⟩

/-- Filtering one key class through an `orderedInsert` of a row of that key:
the inserted row lands in front of its class (insertion from the right makes
this stability). -/
theorem filter_orderedInsert_of_eq (k : _) (a : Row) (h : rowSortKey a = k) :
    ∀ l : List Row,
      (List.orderedInsert rowLe a l).filter (fun r => rowSortKey r == k) =
        a :: l.filter (fun r => rowSortKey r == k) := by
  intro l
  induction l with
  | nil => simp [List.orderedInsert, h]
  | cons b t ih =>
    rw [List.orderedInsert]
    by_cases hab : rowLe a b
    · rw [if_pos hab]
      simp [List.filter_cons, h]
    · rw [if_neg hab]
      have hbk : (rowSortKey b == k) = false := by
        rcases hb : rowSortKey b == k with _ | _
        · rfl
        · have hbe : rowSortKey b = k := by simpa using hb
          exact absurd (rowLe_of_key_eq (h.trans hbe.symm)) hab
      rw [List.filter_cons, List.filter_cons, hbk]
      simp only [Bool.false_eq_true, if_false]
      exact ih

/-- Filtering one key class through an `orderedInsert` of a row of another
key leaves the class unchanged. -/
theorem filter_orderedInsert_of_ne (k : _) (a : Row) (h : ¬ rowSortKey a = k) :
    ∀ l : List Row,
      (List.orderedInsert rowLe a l).filter (fun r => rowSortKey r == k) =
        l.filter (fun r => rowSortKey r == k) := by
  intro l
  have hak : (rowSortKey a == k) = false := by simpa using h
  induction l with
  | nil => simp [List.orderedInsert, hak]
  | cons b t ih =>
    rw [List.orderedInsert]
    by_cases hab : rowLe a b
    · rw [if_pos hab]
      simp [List.filter_cons, hak]
    · rw [if_neg hab]
      rw [List.filter_cons, List.filter_cons]
      rcases hb : rowSortKey b == k with _ | _ <;> simp only [Bool.false_eq_true, if_false,
        if_true] <;> rw [ih]

/-- The stable sort does not reorder rows within one sort-key class. -/
theorem filter_insertionSort (k : _) (l : List Row) :
    (List.insertionSort rowLe l).filter (fun r => rowSortKey r == k) =
      l.filter (fun r => rowSortKey r == k) := by
  induction l with
  | nil => rfl
  | cons x t ih =>
    rw [List.insertionSort]
    by_cases hx : rowSortKey x = k
    · rw [filter_orderedInsert_of_eq k x hx, ih, List.filter_cons]
      simp [hx]
    · rw [filter_orderedInsert_of_ne k x hx, ih, List.filter_cons]
      simp [hx]

/--
C10.  For every non-empty set of matching pairs, `build_matches` returns the
pairs sorted ascending by referral id, then shelter SPA, then shelter name
(`rowLe` is the lexicographic three-key order), and the sort is stable:
within any single sort-key class the rows keep the relative order in which
the cross-product loop produced them, and the output is a permutation of the
collected pairs.
-/
theorem build_matches_sorted (referrals shelters : List Row) (beds : BedsMap)
    (rows : List Row) (hc : collectMatchRows referrals shelters beds = .ok rows)
    (hne : rows ≠ []) :
    buildMatches referrals shelters beds = .ok ⟨MATCH_COLUMNS, sortMatchRows rows⟩ ∧
    (sortMatchRows rows).Sorted rowLe ∧
    (∀ k, (sortMatchRows rows).filter (fun r => rowSortKey r == k) =
      rows.filter (fun r => rowSortKey r == k)) ∧
    (sortMatchRows rows).Perm rows := by
  refine ⟨?_, List.sorted_insertionSort rowLe rows, fun k => filter_insertionSort k rows,
    List.perm_insertionSort rowLe rows⟩
  unfold buildMatches
  rw [hc]
  have : rows.isEmpty = false := by
    cases rows
    · exact absurd rfl hne
    · rfl
  simp [Except.map, this, sortMatchRows]

/--
C10 (witness).  The theorem applied to one referral matching two shelters
(encountered B before A): the output is sorted A before B, has the fixed
schema, and each key class keeps input order.
-/
theorem build_matches_sorted_witness :
    buildMatches [[("ref_row_id", vInt 1)]]
      [[("shelter_uid", vStr "S1"), ("shelter_name", vStr "B")],
       [("shelter_uid", vStr "S1"), ("shelter_name", vStr "A")]]
      [("S1", ⟨⟨2025, 1, 1⟩, 3⟩)] =
      .ok ⟨MATCH_COLUMNS, sortMatchRows
        [matchRowFor [("ref_row_id", vInt 1)]
          [("shelter_uid", vStr "S1"), ("shelter_name", vStr "B")]
          [("S1", ⟨⟨2025, 1, 1⟩, 3⟩)],
         matchRowFor [("ref_row_id", vInt 1)]
          [("shelter_uid", vStr "S1"), ("shelter_name", vStr "A")]
          [("S1", ⟨⟨2025, 1, 1⟩, 3⟩)]]⟩ ∧
    (sortMatchRows
        [matchRowFor [("ref_row_id", vInt 1)]
          [("shelter_uid", vStr "S1"), ("shelter_name", vStr "B")]
          [("S1", ⟨⟨2025, 1, 1⟩, 3⟩)],
         matchRowFor [("ref_row_id", vInt 1)]
          [("shelter_uid", vStr "S1"), ("shelter_name", vStr "A")]
          [("S1", ⟨⟨2025, 1, 1⟩, 3⟩)]]).Sorted rowLe :=
  ⟨(build_matches_sorted [[("ref_row_id", vInt 1)]]
      [[("shelter_uid", vStr "S1"), ("shelter_name", vStr "B")],
       [("shelter_uid", vStr "S1"), ("shelter_name", vStr "A")]]
      [("S1", ⟨⟨2025, 1, 1⟩, 3⟩)]
      [matchRowFor [("ref_row_id", vInt 1)]
        [("shelter_uid", vStr "S1"), ("shelter_name", vStr "B")]
        [("S1", ⟨⟨2025, 1, 1⟩, 3⟩)],
       matchRowFor [("ref_row_id", vInt 1)]
        [("shelter_uid", vStr "S1"), ("shelter_name", vStr "A")]
        [("S1", ⟨⟨2025, 1, 1⟩, 3⟩)]]
      (by decide) (by decide)).1,
   (build_matches_sorted [[("ref_row_id", vInt 1)]]
      [[("shelter_uid", vStr "S1"), ("shelter_name", vStr "B")],
       [("shelter_uid", vStr "S1"), ("shelter_name", vStr "A")]]
      [("S1", ⟨⟨2025, 1, 1⟩, 3⟩)]
      [matchRowFor [("ref_row_id", vInt 1)]
        [("shelter_uid", vStr "S1"), ("shelter_name", vStr "B")]
        [("S1", ⟨⟨2025, 1, 1⟩, 3⟩)],
       matchRowFor [("ref_row_id", vInt 1)]
        [("shelter_uid", vStr "S1"), ("shelter_name", vStr "A")]
        [("S1", ⟨⟨2025, 1, 1⟩, 3⟩)]]
      (by decide) (by decide)).2.1⟩

end ShelterMatching
